import Mathlib

/-!
Shallow embedding of the hrsdb record/session/storage core
(`hrsdb/utils.py`, `hrsdb/db/__init__.py`, `hrsdb/db/models.py`,
`hrsdb/app.py`) and proofs about the behaviour of its operations.

Conventions of the embedding:
* Python `datetime.datetime` values are modelled by the `DateTime`
  structure below (year/month/day/hour/minute/second/microsecond);
  the `datetime` constructor's range checks become the `ValidDateTime`
  predicate.
* SQLAlchemy tables are lists of row structures inside a `DB` record;
  `session.add` followed by `flush`/`commit` appends the staged row, and
  autoincrement primary keys are modelled as (max id in table) + 1,
  matching SQLite rowid assignment.
* flask request handlers become pure functions from the database (and,
  for the ECG data handlers, the on-disk file store) to an explicit
  result type listing exactly the responses the handler can produce;
  a Python exception that escapes the handler is a dedicated
  constructor, distinct from every returned response.
-/

namespace Hrsdb

/-! ## `hrsdb.utils`: the canonical datetime format -/

/-- Model of a Python `datetime.datetime` value (the fields the code
touches).  `DATETIME_FORMAT = "%Y/%m/%d %H:%M:%S"`. -/
structure DateTime where
  year : Nat
  month : Nat
  day : Nat
  hour : Nat
  minute : Nat
  second : Nat
  microsecond : Nat
  deriving DecidableEq, Repr

/-- Leap-year test, as in the Gregorian calendar used by `datetime`. -/
def isLeapYear (y : Nat) : Bool :=
  y % 4 == 0 && (y % 100 != 0 || y % 400 == 0)

/-- Number of days in a month, as enforced by the `datetime` constructor. -/
def daysInMonth (y m : Nat) : Nat :=
  if m == 2 then (if isLeapYear y then 29 else 28)
  else if m == 4 || m == 6 || m == 9 || m == 11 then 30
  else 31

/-- Range invariant of a Python `datetime.datetime` object: every value
the code can hold satisfies this by construction of the Python type. -/
def ValidDateTime (t : DateTime) : Prop :=
  1 ≤ t.year ∧ t.year ≤ 9999 ∧
  1 ≤ t.month ∧ t.month ≤ 12 ∧
  1 ≤ t.day ∧ t.day ≤ daysInMonth t.year t.month ∧
  t.hour ≤ 23 ∧ t.minute ≤ 59 ∧ t.second ≤ 59 ∧ t.microsecond ≤ 999999

instance (t : DateTime) : Decidable (ValidDateTime t) := by
  unfold ValidDateTime; infer_instance

/-- Two zero-padded decimal digits, as `strftime` renders `%m`, `%d`,
`%H`, `%M`, `%S` (fields are below 100 for every valid datetime). -/
def pad2 (n : Nat) : List Char :=
  [Nat.digitChar (n / 10), Nat.digitChar (n % 10)]

/-- Four zero-padded decimal digits, as `strftime` renders `%Y`. -/
def pad4 (n : Nat) : List Char :=
  pad2 (n / 100) ++ pad2 (n % 100)

/-- Embedding of `utils.date2str`: render a datetime in the common
format `"%Y/%m/%d %H:%M:%S"`.  Note the format has no microsecond
field, so `strftime` simply drops `t.microsecond`. -/
def date2str (t : DateTime) : String :=
  String.mk (pad4 t.year ++ ('/' :: (pad2 t.month ++ ('/' :: (pad2 t.day
    ++ (' ' :: (pad2 t.hour ++ (':' :: (pad2 t.minute
    ++ (':' :: pad2 t.second))))))))))

/-- Greedy digit scanner used by `strptime` numeric directives: consume
at most `fuel` further digit characters, accumulating a value. -/
def scanDigits : Nat → Nat → List Char → Nat × List Char
  | 0, acc, cs => (acc, cs)
  | _ + 1, acc, [] => (acc, [])
  | fuel + 1, acc, c :: cs =>
    if c.isDigit then scanDigits fuel (acc * 10 + (c.toNat - 48)) cs
    else (acc, c :: cs)

/-- Model of a `strptime` numeric directive of maximal width `w`: it
requires at least one digit and greedily consumes up to `w` of them. -/
def parseNum (w : Nat) : List Char → Option (Nat × List Char)
  | [] => none
  | c :: cs =>
    if c.isDigit then some (scanDigits (w - 1) (c.toNat - 48) cs)
    else none

/-- Literal character expected by `strptime` between directives. -/
def expectChar (c : Char) : List Char → Option (List Char)
  | [] => none
  | c' :: cs => if c' == c then some cs else none

/-- Embedding of `utils.str2date` on the character list of the input:
`datetime.strptime(s, "%Y/%m/%d %H:%M:%S")`, returning `none` where the
Python code catches the `ValueError` and returns `None`.  The range
checks are those of `_strptime` (`%m` 1-12, `%d` 1-31, `%H` 0-23,
`%M` 0-59) combined with the `datetime` constructor's day-of-month and
second checks; the parse fails if characters remain unconsumed.
A successfully parsed value always has `microsecond = 0` because the
format has no sub-second directive. -/
def str2dateChars (cs : List Char) : Option DateTime :=
  match parseNum 4 cs with
  | none => none
  | some (y, r1) =>
  match expectChar '/' r1 with
  | none => none
  | some r2 =>
  match parseNum 2 r2 with
  | none => none
  | some (m, r3) =>
  match expectChar '/' r3 with
  | none => none
  | some r4 =>
  match parseNum 2 r4 with
  | none => none
  | some (d, r5) =>
  match expectChar ' ' r5 with
  | none => none
  | some r6 =>
  match parseNum 2 r6 with
  | none => none
  | some (h, r7) =>
  match expectChar ':' r7 with
  | none => none
  | some r8 =>
  match parseNum 2 r8 with
  | none => none
  | some (mi, r9) =>
  match expectChar ':' r9 with
  | none => none
  | some r10 =>
  match parseNum 2 r10 with
  | none => none
  | some (s, r11) =>
  if r11 = [] then
    let t : DateTime := ⟨y, m, d, h, mi, s, 0⟩
    if ValidDateTime t then some t else none
  else none

/-- Embedding of `utils.str2date`. -/
def str2date (s : String) : Option DateTime :=
  str2dateChars s.data

example : str2date "1997/04/12 10:30:00" =
    some ⟨1997, 4, 12, 10, 30, 0, 0⟩ := by decide

example : str2date "1997/04/12" = none := by decide

/-! ### Round-trip lemmas for the canonical format -/

lemma digitChar_isDigit {d : Nat} (h : d < 10) :
    (Nat.digitChar d).isDigit = true := by
  interval_cases d <;> decide

lemma digitChar_toNat {d : Nat} (h : d < 10) :
    (Nat.digitChar d).toNat - 48 = d := by
  interval_cases d <;> decide

lemma parseNum_pad2 {n : Nat} (h : n ≤ 99) (rest : List Char) :
    parseNum 2 (pad2 n ++ rest) = some (n, rest) := by
  have h1 : n / 10 < 10 := by omega
  have h2 : n % 10 < 10 := by omega
  simp only [pad2, List.cons_append, List.nil_append, parseNum,
    digitChar_isDigit h1, if_true, scanDigits, digitChar_isDigit h2,
    digitChar_toNat h1, digitChar_toNat h2]
  simp only [Option.some.injEq, Prod.mk.injEq, and_true]
  omega

lemma parseNum_pad4 {n : Nat} (h : n ≤ 9999) (rest : List Char) :
    parseNum 4 (pad4 n ++ rest) = some (n, rest) := by
  have h1 : n / 100 / 10 < 10 := by omega
  have h2 : n / 100 % 10 < 10 := by omega
  have h3 : n % 100 / 10 < 10 := by omega
  have h4 : n % 100 % 10 < 10 := by omega
  simp only [pad4, pad2, List.cons_append, List.nil_append, parseNum,
    digitChar_isDigit h1, if_true, scanDigits, digitChar_isDigit h2,
    digitChar_isDigit h3, digitChar_isDigit h4, digitChar_toNat h1,
    digitChar_toNat h2, digitChar_toNat h3, digitChar_toNat h4]
  simp only [Option.some.injEq, Prod.mk.injEq, and_true]
  omega

lemma parseNum_pad2_nil {n : Nat} (h : n ≤ 99) :
    parseNum 2 (pad2 n) = some (n, []) := by
  have h2 := parseNum_pad2 h []
  rwa [List.append_nil] at h2

lemma expectChar_cons (c : Char) (rest : List Char) :
    expectChar c (c :: rest) = some rest := by
  simp [expectChar]

lemma daysInMonth_le (y m : Nat) : daysInMonth y m ≤ 31 := by
  unfold daysInMonth
  split
  · split <;> omega
  · split <;> omega

/-- Core round-trip fact: rendering a valid datetime through the common
format and parsing it back recovers every field except `microsecond`,
which the format cannot carry and which comes back as `0`. -/
lemma str2date_date2str (t : DateTime) (h : ValidDateTime t) :
    str2date (date2str t) = some { t with microsecond := 0 } := by
  obtain ⟨h1, h2, h3, h4, h5, h6, h7, h8, h9, _⟩ := h
  have hdm := daysInMonth_le t.year t.month
  have py := parseNum_pad4 (show t.year ≤ 9999 by omega)
  have pm := parseNum_pad2 (show t.month ≤ 99 by omega)
  have pd := parseNum_pad2 (show t.day ≤ 99 by omega)
  have ph := parseNum_pad2 (show t.hour ≤ 99 by omega)
  have pmi := parseNum_pad2 (show t.minute ≤ 99 by omega)
  have ps := parseNum_pad2_nil (show t.second ≤ 99 by omega)
  have hv : ValidDateTime ⟨t.year, t.month, t.day, t.hour, t.minute, t.second, 0⟩ :=
    ⟨h1, h2, h3, h4, h5, h6, h7, h8, h9, Nat.zero_le _⟩
  show str2dateChars _ = _
  simp only [date2str]
  simp only [str2dateChars, py, pm, pd, ph, pmi, ps, expectChar_cons,
    if_pos rfl, if_pos hv]
  simp

/-! ## `hrsdb.db.models`: the entity model

Each SQLAlchemy table becomes a list of row structures.  Rows carry
their primary key explicitly; autoincrement assignment at
`session.flush()` is modelled by `nextId` below. -/

/-- Row of the `patients` table. -/
structure PatientRow where
  id : Nat
  first_name : String
  last_name : String
  gender : Int
  date_of_birth : DateTime
  deriving DecidableEq, Repr

/-- Row of the `biometric_types` table. -/
structure BiometricTypeRow where
  id : Nat
  name : String
  units : String
  deriving DecidableEq, Repr

/-- Row of the `biometrics` table. -/
structure BiometricRow where
  id : Nat
  patient_id : Nat
  type_id : Nat
  value : String
  timestamp : DateTime
  deriving DecidableEq, Repr

/-- Row of the `ecg` table.  `sampling_freq` is a float the code only
passes through, modelled as a rational. -/
structure ECGRow where
  id : Nat
  patient_id : Nat
  sampling_freq : Rat
  data_id : Nat
  timestamp : DateTime
  deriving DecidableEq, Repr

/-- Row of the `ecg_data` table: `path` is the filename stored under
the configured upload root. -/
structure ECGDataRow where
  id : Nat
  path : String
  deriving DecidableEq, Repr

/-- State of the relational store: one list per table. -/
structure DB where
  patients : List PatientRow
  biometric_types : List BiometricTypeRow
  biometrics : List BiometricRow
  ecgs : List ECGRow
  ecg_data : List ECGDataRow
  deriving DecidableEq, Repr

/-- Next autoincrement primary key over a list of existing keys:
SQLite assigns max(id) + 1. -/
def nextId (ids : List Nat) : Nat :=
  ids.foldr max 0 + 1

lemma le_foldr_max {ids : List Nat} {x : Nat} (h : x ∈ ids) :
    x ≤ ids.foldr max 0 := by
  induction ids with
  | nil => cases h
  | cons a l ih =>
    rcases List.mem_cons.mp h with rfl | h
    · exact le_max_left _ _
    · exact le_trans (ih h) (le_max_right _ _)

lemma nextId_not_mem (ids : List Nat) : nextId ids ∉ ids := by
  intro h
  have h2 := le_foldr_max h
  simp only [nextId] at h2
  omega

lemma find?_append_of_none {α : Type} (p : α → Bool) (l₁ l₂ : List α)
    (h : ∀ x ∈ l₁, p x = false) :
    (l₁ ++ l₂).find? p = l₂.find? p := by
  induction l₁ with
  | nil => rfl
  | cons a l ih =>
    rw [List.cons_append, List.find?_cons_of_neg _ (by simp [h a (by simp)])]
    exact ih fun x hx => h x (by simp [hx])

/-! ## `hrsdb.db.open_session`: the unit-of-work manager

The context manager

```python
session = Session()
try:
    yield session
    session.commit()
except Exception as error:
    session.rollback()
    logger.exception(...)
    raise
finally:
    session.close()
```

is embedded as a function of the wrapped body.  The body reads the
current store and either finishes normally — producing a value and the
staged state the session would commit — or raises, modelled by
`Except.error`.  `session.commit()` itself runs inside the `try` and
may raise; the backing store's verdict on the staged state is the
`commitFail` oracle.  The record returned states what the persistent
store holds afterwards, what the caller observes, and whether
`session.close()` ran. -/

/-- Outcome of running one unit of work. -/
structure SessionRun (ε α : Type) where
  /-- `Except.ok` when the block returned normally (the transaction
  committed); `Except.error` when an exception escaped the block. -/
  result : Except ε α
  /-- Persistent database state after the unit of work. -/
  finalDb : DB
  /-- Whether `session.close()` ran (the `finally` clause). -/
  closed : Bool
  deriving Repr

/-- Embedding of `open_session`: run `body` on the current store;
commit its staged writes on normal completion (unless the backing
store rejects the commit, which the `except` clause turns into a
rollback and re-raise); roll back and re-raise on any exception; close
the session on every path. -/
def openSession {ε α : Type} (db : DB) (body : DB → Except ε (α × DB))
    (commitFail : DB → Option ε) : SessionRun ε α :=
  match body db with
  | .error e => ⟨.error e, db, true⟩
  | .ok (a, staged) =>
    match commitFail staged with
    | some e => ⟨.error e, db, true⟩
    | none => ⟨.ok a, staged, true⟩

/-! ## `hrsdb.db.to_dict`: the record serializer

`to_dict` walks a row's columns and copies each value, rendering
`DateTime` columns through `utils.date2str`.  The embedding spells the
column walk out per table. -/

/-- Serialized `patients` row (`to_dict` output). -/
structure PatientDict where
  id : Nat
  first_name : String
  last_name : String
  gender : Int
  date_of_birth : String
  deriving DecidableEq, Repr

/-- Serialized `biometrics` row (`to_dict` output). -/
structure BiometricDict where
  id : Nat
  patient_id : Nat
  type_id : Nat
  value : String
  timestamp : String
  deriving DecidableEq, Repr

/-- Serialized `ecg` row (`to_dict` output). -/
structure EcgDict where
  id : Nat
  patient_id : Nat
  sampling_freq : Rat
  data_id : Nat
  timestamp : String
  deriving DecidableEq, Repr

/-- Embedding of `to_dict` at a `Patient` row: `date_of_birth` is a
`DateTime` column and is rendered with `date2str`; all other columns
pass through. -/
def to_dict_patient (p : PatientRow) : PatientDict :=
  ⟨p.id, p.first_name, p.last_name, p.gender, date2str p.date_of_birth⟩

/-- Embedding of `to_dict` at a `Biometric` row. -/
def to_dict_biometric (b : BiometricRow) : BiometricDict :=
  ⟨b.id, b.patient_id, b.type_id, b.value, date2str b.timestamp⟩

/-- Embedding of `to_dict` at an `ECG` row. -/
def to_dict_ecg (e : ECGRow) : EcgDict :=
  ⟨e.id, e.patient_id, e.sampling_freq, e.data_id, date2str e.timestamp⟩

/-! ## Entity operations from `hrsdb.db.models` -/

/-- Lookup used by the handlers: `session.query(Patient).filter(Patient.id == pid)`
with `.one()`; a primary-key filter yields at most one row, so the
first match models it. -/
def queryPatientById (db : DB) (pid : Nat) : Option PatientRow :=
  db.patients.find? fun p => p.id == pid

/-- Embedding of `Patient.add_biometric`.  The source guards with

```python
try:
    session.query(BiometricType).filter(BiometricType.id == type_id).one_or_none()
except NoResultFound:
    return None
```

but `one_or_none()` returns `None` instead of raising `NoResultFound`
when no row matches, and its return value is discarded, so the guard
can never take the `return None` branch: the biometric is staged
unconditionally, whether or not `type_id` resolves.  The `Option` in
the result keeps the source's `Biometric | None` shape; it is always
`some`. -/
def add_biometric (db : DB) (self_id type_id : Nat) (value : String)
    (timestamp : DateTime) : Option BiometricRow × DB :=
  let _typeLookup := db.biometric_types.find? fun t => t.id == type_id
  let row : BiometricRow :=
    ⟨nextId (db.biometrics.map (·.id)), self_id, type_id, value, timestamp⟩
  (some row, { db with biometrics := db.biometrics ++ [row] })

/-- Embedding of `Patient.add_ecg` composed with the `ECG` constructor.
The source's `add_ecg(self, session, sampling_freq, timestamp, data)`
calls `ECG(self.id, sampling_freq, timestamp, data)` against the
constructor signature `ECG(patient_id, sampling_freq, data, timestamp)`,
so `add_ecg` feeds its `timestamp` argument into the constructor's
`data` slot and vice versa; the only call site (`ECGAPI.put`) passes
its own arguments swapped the same way (`add_ecg(session,
sampling_freq, ecgdata, timestamp)`), and the two swaps cancel.  The
embedding is the net effect at that call: the new row stores `data.id`
as `data_id` and `timestamp` as `timestamp`. -/
def add_ecg (db : DB) (self_id : Nat) (sampling_freq : Rat)
    (data : ECGDataRow) (timestamp : DateTime) : ECGRow × DB :=
  let row : ECGRow :=
    ⟨nextId (db.ecgs.map (·.id)), self_id, sampling_freq, data.id, timestamp⟩
  (row, { db with ecgs := db.ecgs ++ [row] })

/-- Static seed data of `BiometricType.static_data`. -/
def static_data : List (Nat × String × String) :=
  [(1, "height", "cm"), (2, "weight", "kg"),
   (3, "blood pressure", "mm Hg"), (10, "ecg", "mV")]

/-- Rows one run of `BiometricType.create_static` stages: the existing
rows are queried once (`local_data`), then each static entry whose
`name` is not among them is passed to `session.add`, in order. -/
def create_static_staged (rows : List BiometricTypeRow) : List BiometricTypeRow :=
  (static_data.filter
      fun s => !(rows.any fun e => e.name == s.2.1)).map
      fun s => (⟨s.1, s.2.1, s.2.2⟩ : BiometricTypeRow)

/-- Table contents after one full seeding run: `create_static(session)`
followed by the unit-of-work commit.  The staged entries carry the
hard-coded primary keys 1, 2, 3, 10 of `static_data`, and the
`biometric_types` table's primary-key constraint is enforced at
commit: if a staged id is already taken by an existing row, the INSERT
raises `IntegrityError` and `open_session` rolls the whole run back,
leaving the table unchanged (the claims settled here concern the
resulting table, so the propagated exception is not modelled beyond
the rollback).  Otherwise the staged rows are appended.  Staged
entries cannot collide with each other because `static_data` has
pairwise distinct ids. -/
def create_static (rows : List BiometricTypeRow) : List BiometricTypeRow :=
  let staged := create_static_staged rows
  if staged.any (fun r => rows.any fun e => e.id == r.id) then rows
  else rows ++ staged

/-! ## The on-disk blob store

`ECGDataAPI` keeps ECG sample payloads as CSV files under
`current_app.config['UPLOAD_FOLDER']`.  A file is its list of CSV
rows, each row a list of textual fields; the file system maps full
paths to files, with a later write to the same path shadowing an
earlier one. -/

/-- Contents of one uploaded data file, as the `csv` module sees it. -/
abbrev CSVFile := List (List String)

/-- On-disk state: path to file contents. -/
abbrev FileSystem := List (String × CSVFile)

/-- Write (or overwrite) a file. -/
def fsWrite (fs : FileSystem) (path : String) (content : CSVFile) : FileSystem :=
  (path, content) :: fs

/-- Read a file; `none` models `open()` raising `FileNotFoundError`. -/
def fsRead (fs : FileSystem) (path : String) : Option CSVFile :=
  (fs.find? fun e => e.1 == path).map (·.2)

/-- Model of `os.path.join(UPLOAD_FOLDER, name)` for a relative `name`
under a root with no trailing separator. -/
def joinPath (root name : String) : String :=
  root ++ "/" ++ name

/-! ## `hrsdb.app`: the request handlers -/

/-- Responses of `PatientAPI.get`. -/
inductive PatientGetResult
  | found (record : PatientDict)
  | noRecord404
  deriving DecidableEq, Repr

/-- Embedding of `PatientAPI.get`: query by primary key with `.one()`;
`NoResultFound` becomes the 404 response, otherwise the serialized
record is returned. -/
def patientGet (db : DB) (patient_id : Nat) : PatientGetResult :=
  match queryPatientById db patient_id with
  | none => .noRecord404
  | some record => .found (to_dict_patient record)

/-- Responses of `PatientAPI.put`. -/
inductive PatientPutResult
  | ok (id : Nat)
  | aborted
  deriving DecidableEq, Repr

/-- Embedding of `PatientAPI.put`: parse `date_of_birth` with
`str2date` and `abort()` if it is invalid; otherwise stage a new
`Patient` row, flush (assigning the id) and commit. -/
def patientPut (db : DB) (first_name last_name : String) (gender : Int)
    (date_of_birth : String) : PatientPutResult × DB :=
  match str2date date_of_birth with
  | none => (.aborted, db)
  | some dob =>
    let row : PatientRow :=
      ⟨nextId (db.patients.map (·.id)), first_name, last_name, gender, dob⟩
    (.ok row.id, { db with patients := db.patients ++ [row] })

/-- Responses of `BiometricAPI.put`. -/
inductive BiometricPutResult
  | ok (id : Nat)
  | abort500
  | noMatchingPatient
  /-- the `"No matching Biometric type"` response; unreachable in the
  source because `add_biometric` never returns `None` (see
  `add_biometric`). -/
  | noMatchingType
  deriving DecidableEq, Repr

/-- Embedding of `BiometricAPI.put`: validate the timestamp, resolve
`patient_id` with `.one()` (`NoResultFound` yields the
`"No matching Patient"` response before anything is staged), then call
`Patient.add_biometric` and commit. -/
def biometricPut (db : DB) (patient_id type_id : Nat) (value : String)
    (timestampStr : String) : BiometricPutResult × DB :=
  match str2date timestampStr with
  | none => (.abort500, db)
  | some timestamp =>
    match queryPatientById db patient_id with
    | none => (.noMatchingPatient, db)
    | some patient =>
      match add_biometric db patient.id type_id value timestamp with
      | (none, db') => (.noMatchingType, db')
      | (some biometric, db') => (.ok biometric.id, db')

/-- Responses of the two list handlers (`BiometricListAPI.get`,
`ECGAPI.get`).  The `NoResultFound` branch of the source is dead code
(`Query.all()` returns a list and never raises `NoResultFound`), so an
empty result is reported as `ok []`. -/
inductive ListResult (α : Type)
  | ok (records : List α)
  | noResult404
  deriving DecidableEq, Repr

/-- Embedding of `BiometricListAPI.get`: filter the biometrics by
`patient_id`, optionally also by `biometric_type_id`, and serialize
each row; `.all()` succeeds with an empty list when nothing matches. -/
def biometricListGet (db : DB) (patient_id : Nat)
    (biometric_type_id : Option Nat) : ListResult BiometricDict :=
  let q : List BiometricRow := db.biometrics.filter fun b => b.patient_id == patient_id
  let records : List BiometricRow :=
    match biometric_type_id with
    | some t => q.filter fun b => b.type_id == t
    | none => q
  .ok (records.map to_dict_biometric)

/-- Embedding of `ECGAPI.get`: filter the ECG rows by `patient_id` and
serialize each; `.all()` succeeds with an empty list when nothing
matches. -/
def ecgListGet (db : DB) (patient_id : Nat) : ListResult EcgDict :=
  .ok ((db.ecgs.filter fun e => e.patient_id == patient_id).map to_dict_ecg)

/-- Responses of `ECGAPI.put`. -/
inductive EcgPutResult
  | ok (id : Nat)
  | abort500
  /-- the `"No matching Patient"` response, produced by the shared
  `except NoResultFound` around both the patient and the data lookup. -/
  | noMatchingPatient
  deriving DecidableEq, Repr

/-- Embedding of `ECGAPI.put`: validate the timestamp, then resolve
`patient_id` and `data_id` with `.one()` inside one `try` —
`NoResultFound` from either lookup yields the `"No matching Patient"`
response with nothing staged — then call `Patient.add_ecg` and
commit. -/
def ecgPut (db : DB) (patient_id : Nat) (sampling_freq : Rat)
    (data_id : Nat) (timestampStr : String) : EcgPutResult × DB :=
  match str2date timestampStr with
  | none => (.abort500, db)
  | some timestamp =>
    match queryPatientById db patient_id with
    | none => (.noMatchingPatient, db)
    | some patient =>
      match db.ecg_data.find? fun d => d.id == data_id with
      | none => (.noMatchingPatient, db)
      | some ecgdata =>
        let (ecg, db') := add_ecg db patient.id sampling_freq ecgdata timestamp
        (.ok ecg.id, db')

/-- Outcomes of `ECGDataAPI.get`.  The file read sits inside the
`with open_session()` block but outside any `try`, so a missing or
empty file does not produce a response at all: the exception escapes
the handler. -/
inductive EcgDataGetResult
  | ok (data : List String)
  | noResult404
  /-- `open()` raised `FileNotFoundError`, or `list(csv_reader)[0]`
  raised `IndexError`; the exception propagates out of the handler
  uncaught. -/
  | raisedException
  deriving DecidableEq, Repr

/-- Embedding of `ECGDataAPI.get`: resolve the `ECGData` row with
`.one()` (`NoResultFound` yields the 404 response), then open the file
under the upload root and return the first CSV row. -/
def ecgdataGet (uploadRoot : String) (fs : FileSystem) (db : DB)
    (dataId : Nat) : EcgDataGetResult :=
  match db.ecg_data.find? fun d => d.id == dataId with
  | none => .noResult404
  | some dbRecord =>
    match fsRead fs (joinPath uploadRoot dbRecord.path) with
    | none => .raisedException
    | some rows =>
      match rows with
      | [] => .raisedException
      | data :: _ => .ok data

/-- Observable blob-store actions of `ECGDataAPI.put`, in program
order. -/
inductive BlobEvent
  | fileWrite (path : String)
  /-- an `ECGData` row referencing `path` was committed. -/
  | rowCreate (path : String)
  deriving DecidableEq, Repr

/-- Outcomes of `ECGDataAPI.put`. -/
inductive EcgDataPutResult
  | ok (id : Nat)
  /-- `session.commit()` raised; `open_session` rolled back and
  re-raised, so no response is returned and no row persists. -/
  | commitRaised
  deriving DecidableEq, Repr

/-- Full observable behaviour of one `ECGDataAPI.put` request. -/
structure EcgDataPutRun where
  events : List BlobEvent
  result : EcgDataPutResult
  db : DB
  fs : FileSystem
  deriving Repr

/-- Embedding of `ECGDataAPI.put`: build `filename = "ecg_" + uuid4() + ".dat"`
(`u` stands for the drawn uuid), save the uploaded file under the
upload root, and only then open a session, stage an `ECGData` row
holding `filename`, flush and commit.  `commitFails` is the backing
store's verdict on the commit: when it raises, the staged row is
rolled back but the file write has already happened (the orphaned file
is tolerated). -/
def ecgdataPut (uploadRoot u : String) (content : CSVFile)
    (commitFails : Bool) (db : DB) (fs : FileSystem) : EcgDataPutRun :=
  let filename := "ecg_" ++ u ++ ".dat"
  let fullPath := joinPath uploadRoot filename
  let fs' := fsWrite fs fullPath content
  if commitFails then
    ⟨[.fileWrite fullPath], .commitRaised, db, fs'⟩
  else
    let row : ECGDataRow := ⟨nextId (db.ecg_data.map (·.id)), filename⟩
    ⟨[.fileWrite fullPath, .rowCreate fullPath], .ok row.id,
      { db with ecg_data := db.ecg_data ++ [row] }, fs'⟩

/-! ## Shared helper lemmas -/

/-- Round trip for datetimes whose sub-second part is zero. -/
lemma str2date_date2str_zero {t : DateTime} (hv : ValidDateTime t)
    (hm : t.microsecond = 0) : str2date (date2str t) = some t := by
  have h := str2date_date2str t hv
  rwa [show ({ t with microsecond := 0 } : DateTime) = t by
    cases t; simp_all] at h

/-- Looking up a freshly appended row by its (fresh) primary key finds
that row. -/
lemma find?_id_append_fresh {α : Type} (getId : α → Nat) (l : List α)
    (row : α) (h : getId row = nextId (l.map getId)) :
    (l ++ [row]).find? (fun x => getId x == getId row) = some row := by
  rw [find?_append_of_none]
  · simp
  · intro x hx
    simp only [beq_eq_false_iff_ne, ne_eq]
    intro he
    exact nextId_not_mem (l.map getId)
      (h ▸ he ▸ List.mem_map_of_mem getId hx)

/-! ## The claims -/

/-- **C2**.  Every unit of work opened via `open_session` commits the
staged state on normal completion of the body, rolls the store back
and propagates the exception when the body (or the commit itself)
raises, and closes the session on every exit path. -/
theorem C2_open_session_commit_rollback_close {ε α : Type} (db : DB)
    (body : DB → Except ε (α × DB)) (commitFail : DB → Option ε) :
    (openSession db body commitFail).closed = true ∧
    (∀ e, body db = .error e →
      openSession db body commitFail = ⟨.error e, db, true⟩) ∧
    (∀ a staged, body db = .ok (a, staged) →
      (commitFail staged = none →
        openSession db body commitFail = ⟨.ok a, staged, true⟩) ∧
      (∀ e, commitFail staged = some e →
        openSession db body commitFail = ⟨.error e, db, true⟩)) := by
  refine ⟨?_, ?_, ?_⟩
  · unfold openSession
    rcases body db with e | ⟨a, staged⟩
    · rfl
    · rcases h : commitFail staged with _ | e <;> simp [h]
  · intro e he
    unfold openSession
    rw [he]
  · intro a staged hok
    constructor
    · intro hc
      unfold openSession
      rw [hok]
      dsimp only
      rw [hc]
    · intro e hc
      unfold openSession
      rw [hok]
      dsimp only
      rw [hc]

/-- Witness for C2 at a concrete store, body and commit verdict. -/
theorem C2_witness :
    openSession (ε := String) ⟨[], [], [], [], []⟩
      (fun db => .ok (42, db)) (fun _ => none) =
      ⟨.ok 42, ⟨[], [], [], [], []⟩, true⟩ :=
  ((C2_open_session_commit_rollback_close ⟨[], [], [], [], []⟩
      (fun db => .ok (42, db)) (fun _ => none)).2.2
    42 ⟨[], [], [], [], []⟩ rfl).1 rfl

/-- **C5** (as stated, refuted).  Parsing the canonical rendering of a
datetime does not return it unchanged when its `microsecond` field is
nonzero: the format `"%Y/%m/%d %H:%M:%S"` has no sub-second field, so
`date2str` drops it and `str2date` parses it back as `0`. -/
theorem C5_counterexample :
    str2date (date2str ⟨2020, 1, 1, 0, 0, 0, 500000⟩) ≠
      some ⟨2020, 1, 1, 0, 0, 0, 500000⟩ := by
  decide

/-- **C5** (amended).  For every valid datetime `t` whose sub-second
part is zero, `str2date (date2str t) = t`: the round trip is lossless
exactly on datetimes the canonical format can represent. -/
theorem C5_roundtrip_of_microsecond_zero (t : DateTime)
    (hv : ValidDateTime t) (hm : t.microsecond = 0) :
    str2date (date2str t) = some t :=
  str2date_date2str_zero hv hm

/-- Witness for C5 at a concrete datetime. -/
theorem C5_witness :
    ValidDateTime ⟨1997, 4, 12, 10, 30, 0, 0⟩ ∧
      str2date (date2str ⟨1997, 4, 12, 10, 30, 0, 0⟩) =
        some ⟨1997, 4, 12, 10, 30, 0, 0⟩ :=
  ⟨by decide, C5_roundtrip_of_microsecond_zero _ (by decide) rfl⟩

/-- **C1** (the code violates the claim).  Creating a biometric whose
`type_id` resolves to no `BiometricType` row does not fail: because
`add_biometric` guards with `one_or_none()` inside
`except NoResultFound` and discards the result, the lookup can never
reject, and a `Biometric` row with a dangling `type_id` is staged,
committed and its id returned.  The hypothesis `habsent` pins the
failing scenario; the conclusion shows the table grows by one row. -/
theorem C1_missing_type_still_inserts (db : DB) (pid type_id : Nat)
    (v : String) (tsStr : String) (ts : DateTime) (patient : PatientRow)
    (hts : str2date tsStr = some ts)
    (hp : queryPatientById db pid = some patient)
    (habsent : ∀ t ∈ db.biometric_types, t.id ≠ type_id) :
    biometricPut db pid type_id v tsStr =
      (.ok (nextId (db.biometrics.map (·.id))),
       { db with biometrics := db.biometrics ++
          [⟨nextId (db.biometrics.map (·.id)), patient.id, type_id, v, ts⟩] }) := by
  simp [biometricPut, hts, hp, add_biometric]

/-- Witness for C1: patient 1 exists, the `biometric_types` table is
empty, yet the create succeeds and inserts a row. -/
theorem C1_witness :
    str2date "2015/05/19 12:04:59" = some ⟨2015, 5, 19, 12, 4, 59, 0⟩ ∧
    queryPatientById ⟨[⟨1, "Bob", "Smith", 0, ⟨1997, 4, 12, 0, 0, 0, 0⟩⟩], [], [], [], []⟩ 1 =
      some ⟨1, "Bob", "Smith", 0, ⟨1997, 4, 12, 0, 0, 0, 0⟩⟩ ∧
    biometricPut ⟨[⟨1, "Bob", "Smith", 0, ⟨1997, 4, 12, 0, 0, 0, 0⟩⟩], [], [], [], []⟩
        1 999 "70" "2015/05/19 12:04:59" =
      (.ok 1,
       ⟨[⟨1, "Bob", "Smith", 0, ⟨1997, 4, 12, 0, 0, 0, 0⟩⟩], [],
        [⟨1, 1, 999, "70", ⟨2015, 5, 19, 12, 4, 59, 0⟩⟩], [], []⟩) :=
  ⟨by decide, by decide, by
    exact C1_missing_type_still_inserts
      ⟨[⟨1, "Bob", "Smith", 0, ⟨1997, 4, 12, 0, 0, 0, 0⟩⟩], [], [], [], []⟩
      1 999 "70" "2015/05/19 12:04:59" ⟨2015, 5, 19, 12, 4, 59, 0⟩
      ⟨1, "Bob", "Smith", 0, ⟨1997, 4, 12, 0, 0, 0, 0⟩⟩
      (by decide) (by decide) (by decide)⟩

/-- **C7**.  Creating a Biometric or an ECG whose `patient_id` resolves
to no `Patient` row returns the `"No matching Patient"` response from
the `except NoResultFound` around the patient lookup, and the store is
unchanged: nothing was staged before the lookup, so nothing commits. -/
theorem C7_missing_patient_rejects_creates (db : DB)
    (pid type_id data_id : Nat) (v : String) (freq : Rat)
    (tsStr : String) (ts : DateTime)
    (hts : str2date tsStr = some ts)
    (hp : queryPatientById db pid = none) :
    biometricPut db pid type_id v tsStr = (.noMatchingPatient, db) ∧
    ecgPut db pid freq data_id tsStr = (.noMatchingPatient, db) := by
  constructor <;> simp [biometricPut, ecgPut, hts, hp]

/-- Witness for C7 on an empty patients table. -/
theorem C7_witness :
    str2date "2015/05/19 12:04:59" = some ⟨2015, 5, 19, 12, 4, 59, 0⟩ ∧
    queryPatientById ⟨[], [], [], [], []⟩ 7 = none ∧
    (biometricPut ⟨[], [], [], [], []⟩ 7 1 "70" "2015/05/19 12:04:59" =
        (.noMatchingPatient, ⟨[], [], [], [], []⟩) ∧
      ecgPut ⟨[], [], [], [], []⟩ 7 1000 1 "2015/05/19 12:04:59" =
        (.noMatchingPatient, ⟨[], [], [], [], []⟩)) :=
  ⟨by decide, by decide,
    C7_missing_patient_rejects_creates ⟨[], [], [], [], []⟩ 7 1 1 "70" 1000
      "2015/05/19 12:04:59" ⟨2015, 5, 19, 12, 4, 59, 0⟩
      (by decide) (by decide)⟩

/-- **C10**.  When no Biometric (resp. ECG) row carries the requested
`patient_id` — in particular when the id matches no Patient at all,
since the list handlers never consult the patients table — both list
handlers answer with a successful empty list, never a 404 or a
"no matching patient" error: `Query.all()` returns `[]` without
raising. -/
theorem C10_list_handlers_empty_success (db : DB) (pid : Nat)
    (tid : Option Nat)
    (hb : ∀ b ∈ db.biometrics, b.patient_id ≠ pid)
    (he : ∀ e ∈ db.ecgs, e.patient_id ≠ pid) :
    biometricListGet db pid tid = .ok [] ∧ ecgListGet db pid = .ok [] := by
  have hbf : db.biometrics.filter (fun b => b.patient_id == pid) = [] :=
    List.filter_eq_nil_iff.mpr fun b hbm => by simp [hb b hbm]
  have hef : db.ecgs.filter (fun e => e.patient_id == pid) = [] :=
    List.filter_eq_nil_iff.mpr fun e hem => by simp [he e hem]
  constructor
  · cases tid <;> simp [biometricListGet, hbf]
  · simp [ecgListGet, hef]

/-- Witness for C10: rows exist for patient 1 only, patient 2 is
queried (and also resolves to no Patient row). -/
theorem C10_witness :
    (∀ b ∈ ([⟨1, 1, 1, "70", ⟨2015, 5, 19, 12, 4, 59, 0⟩⟩] :
        List BiometricRow), b.patient_id ≠ 2) ∧
    biometricListGet
        ⟨[], [], [⟨1, 1, 1, "70", ⟨2015, 5, 19, 12, 4, 59, 0⟩⟩],
         [⟨1, 1, 1000, 1, ⟨2015, 5, 19, 12, 4, 59, 0⟩⟩], []⟩ 2 none = .ok [] ∧
    ecgListGet
        ⟨[], [], [⟨1, 1, 1, "70", ⟨2015, 5, 19, 12, 4, 59, 0⟩⟩],
         [⟨1, 1, 1000, 1, ⟨2015, 5, 19, 12, 4, 59, 0⟩⟩], []⟩ 2 = .ok [] :=
  ⟨by decide,
    (C10_list_handlers_empty_success
      ⟨[], [], [⟨1, 1, 1, "70", ⟨2015, 5, 19, 12, 4, 59, 0⟩⟩],
       [⟨1, 1, 1000, 1, ⟨2015, 5, 19, 12, 4, 59, 0⟩⟩], []⟩ 2 none
      (by decide) (by decide)).1,
    (C10_list_handlers_empty_success
      ⟨[], [], [⟨1, 1, 1, "70", ⟨2015, 5, 19, 12, 4, 59, 0⟩⟩],
       [⟨1, 1, 1000, 1, ⟨2015, 5, 19, 12, 4, 59, 0⟩⟩], []⟩ 2 none
      (by decide) (by decide)).2⟩

/-- **C6**.  Creating a Patient from a canonically formatted date of
birth and reading it back by the returned id yields a record equal to
the input in every field, with the generated id attached.  Canonical
inputs are the renderings of valid datetimes with zero microseconds
(the canonical format carries no sub-second digits). -/
theorem C6_patient_create_then_get (db : DB) (fn ln : String) (g : Int)
    (dob : DateTime) (hv : ValidDateTime dob) (hm : dob.microsecond = 0) :
    (patientPut db fn ln g (date2str dob)).1 =
      .ok (nextId (db.patients.map (·.id))) ∧
    patientGet (patientPut db fn ln g (date2str dob)).2
        (nextId (db.patients.map (·.id))) =
      .found ⟨nextId (db.patients.map (·.id)), fn, ln, g, date2str dob⟩ := by
  have hparse := str2date_date2str_zero hv hm
  have hput : patientPut db fn ln g (date2str dob) =
      (.ok (nextId (db.patients.map (·.id))),
       { db with patients := db.patients ++
          [⟨nextId (db.patients.map (·.id)), fn, ln, g, dob⟩] }) := by
    simp [patientPut, hparse]
  rw [hput]
  refine ⟨rfl, ?_⟩
  have hf := find?_id_append_fresh (fun p : PatientRow => p.id) db.patients
      (⟨nextId (db.patients.map (·.id)), fn, ln, g, dob⟩ : PatientRow) rfl
  dsimp only at hf
  simp only [patientGet, queryPatientById]
  rw [hf]
  rfl

/-- Witness for C6 with the spec's example patient. -/
theorem C6_witness :
    ValidDateTime ⟨1997, 4, 12, 0, 0, 0, 0⟩ ∧
    ((patientPut ⟨[], [], [], [], []⟩ "Bob" "Smith" 0
        (date2str ⟨1997, 4, 12, 0, 0, 0, 0⟩)).1 = .ok 1 ∧
      patientGet (patientPut ⟨[], [], [], [], []⟩ "Bob" "Smith" 0
          (date2str ⟨1997, 4, 12, 0, 0, 0, 0⟩)).2 1 =
        .found ⟨1, "Bob", "Smith", 0, date2str ⟨1997, 4, 12, 0, 0, 0, 0⟩⟩) :=
  ⟨by decide, by
    exact C6_patient_create_then_get ⟨[], [], [], [], []⟩ "Bob" "Smith" 0
      ⟨1997, 4, 12, 0, 0, 0, 0⟩ (by decide) rfl⟩

/-- **C4** (as stated, refuted).  When the `ECGData` row exists but its
referenced file cannot be located, `ECGDataAPI.get` does not return a
dedicated payload-unavailable response: the `open()` call sits outside
any `try`, so the handler raises and the exception escapes (the
transport turns it into a generic server error).  Concretely, with row
id 1 referencing `ecg_x.dat` and an empty file system, the handler's
outcome is an escaped exception, not a returned response. -/
theorem C4_counterexample :
    ecgdataGet "uploads" [] ⟨[], [], [], [], [⟨1, "ecg_x.dat"⟩]⟩ 1 =
      .raisedException := by
  decide

/-- **C4** (amended).  A payload lookup for an id with no `ECGData` row
returns the 404 not-found response; when the row exists but the file
is missing the handler instead raises an uncaught exception.  The two
outcomes are distinct, so a caller can still tell "no such row" from
"row exists but its data is unreadable", but the latter is an escaped
exception rather than a dedicated `PayloadUnavailable` result. -/
theorem C4_notfound_vs_exception (root : String) (fs : FileSystem)
    (db : DB) (dataId : Nat) :
    (db.ecg_data.find? (fun d => d.id == dataId) = none →
      ecgdataGet root fs db dataId = .noResult404) ∧
    (∀ row, db.ecg_data.find? (fun d => d.id == dataId) = some row →
      fsRead fs (joinPath root row.path) = none →
      ecgdataGet root fs db dataId = .raisedException) ∧
    EcgDataGetResult.noResult404 ≠ EcgDataGetResult.raisedException := by
  refine ⟨?_, ?_, by decide⟩
  · intro h
    simp [ecgdataGet, h]
  · intro row hr hf
    simp [ecgdataGet, hr, hf]

/-- Witness for C4: both branches at concrete inputs. -/
theorem C4_witness :
    ecgdataGet "uploads" [] ⟨[], [], [], [], []⟩ 1 = .noResult404 ∧
    ecgdataGet "uploads" [] ⟨[], [], [], [], [⟨1, "f.dat"⟩]⟩ 1 =
      .raisedException :=
  ⟨(C4_notfound_vs_exception "uploads" [] ⟨[], [], [], [], []⟩ 1).1
      (by decide),
    (C4_notfound_vs_exception "uploads" []
        ⟨[], [], [], [], [⟨1, "f.dat"⟩]⟩ 1).2.1 ⟨1, "f.dat"⟩
      (by decide) (by decide)⟩

lemma fsRead_fsWrite (fs : FileSystem) (p : String) (c : CSVFile) :
    fsRead (fsWrite fs p c) p = some c := by
  unfold fsRead fsWrite
  rw [List.find?_cons_of_pos _ (by simp)]
  rfl

/-- **C9**.  Uploading a payload encoded as one CSV row of `N` sample
fields and reading it back through the returned id yields exactly the
original `N` fields: the value fidelity is exact (the handler returns
the stored textual fields themselves). -/
theorem C9_ecg_payload_roundtrip (root u : String) (samples : List String)
    (db : DB) (fs : FileSystem) :
    (ecgdataPut root u [samples] false db fs).result =
      .ok (nextId (db.ecg_data.map (·.id))) ∧
    ecgdataGet root (ecgdataPut root u [samples] false db fs).fs
        (ecgdataPut root u [samples] false db fs).db
        (nextId (db.ecg_data.map (·.id))) = .ok samples := by
  have hf := find?_id_append_fresh (fun d : ECGDataRow => d.id) db.ecg_data
      (⟨nextId (db.ecg_data.map (·.id)), "ecg_" ++ u ++ ".dat"⟩ : ECGDataRow) rfl
  dsimp only at hf
  constructor
  · rfl
  · simp [ecgdataPut, ecgdataGet, hf, fsRead_fsWrite]

/-- Program-order discipline of the blob store: every committed-row
event is preceded in the trace by the write of the file it
references. -/
def rowCreatePrecededByWrite (evs : List BlobEvent) : Prop :=
  ∀ i p, evs[i]? = some (.rowCreate p) → BlobEvent.fileWrite p ∈ evs.take i

/-- **C3**.  On the ECG payload write path the sample file is written
under the upload root, at a filename built from the drawn uuid,
strictly before the `ECGData` row referencing it is created; whatever
the commit's outcome, any newly committed row references a file whose
contents are on disk, and a failed commit leaves no row (only the
tolerated orphaned file). -/
theorem C3_file_write_precedes_row_create (root u : String)
    (content : CSVFile) (commitFails : Bool) (db : DB) (fs : FileSystem) :
    rowCreatePrecededByWrite
      (ecgdataPut root u content commitFails db fs).events ∧
    (ecgdataPut root u content commitFails db fs).events.head? =
      some (.fileWrite (joinPath root ("ecg_" ++ u ++ ".dat"))) ∧
    (∀ row ∈ (ecgdataPut root u content commitFails db fs).db.ecg_data,
      row ∉ db.ecg_data →
      fsRead (ecgdataPut root u content commitFails db fs).fs
        (joinPath root row.path) = some content) ∧
    (commitFails = true →
      (ecgdataPut root u content commitFails db fs).db = db ∧
      (ecgdataPut root u content commitFails db fs).result = .commitRaised) := by
  cases commitFails
  · refine ⟨?_, rfl, ?_, by intro h; cases h⟩
    · intro i p h
      simp only [ecgdataPut] at h ⊢
      rcases i with _ | _ | i <;> simp_all
    · intro row hmem hnot
      simp only [ecgdataPut] at hmem ⊢
      rcases List.mem_append.mp hmem with h | h
      · exact absurd h hnot
      · rcases List.mem_singleton.mp h with rfl
        exact fsRead_fsWrite ..
  · refine ⟨?_, rfl, ?_, fun _ => ⟨rfl, rfl⟩⟩
    · intro i p h
      simp only [ecgdataPut] at h
      rcases i with _ | i <;> simp_all
    · intro row hmem hnot
      simp only [ecgdataPut] at hmem
      exact absurd hmem hnot

/-- Witness for C3: the committed row's file is on disk with the
uploaded contents. -/
theorem C3_witness :
    fsRead (ecgdataPut "uploads" "x" [["1", "2"]] false
        ⟨[], [], [], [], []⟩ []).fs
      (joinPath "uploads" "ecg_x.dat") = some [["1", "2"]] :=
  (C3_file_write_precedes_row_create "uploads" "x" [["1", "2"]] false
      ⟨[], [], [], [], []⟩ []).2.2.1
    ⟨1, "ecg_x.dat"⟩ (by decide) (by decide)

/-- Number of rows of the `biometric_types` table carrying a given
name. -/
def countName (n : String) (rows : List BiometricTypeRow) : Nat :=
  (rows.filter fun e => e.name == n).length

/-- After a committed seeding run every static name is present (the
stated list is the table `create_static` produces when no primary key
collides). -/
lemma create_static_staged_all_present (rows : List BiometricTypeRow) :
    ∀ s ∈ static_data,
      ((rows ++ create_static_staged rows).any
        fun e => e.name == s.2.1) = true := by
  intro s hs
  rw [List.any_append]
  cases hq : rows.any fun e => e.name == s.2.1
  · simp only [hq, Bool.false_or]
    rw [List.any_eq_true]
    refine ⟨⟨s.1, s.2.1, s.2.2⟩, ?_, by simp⟩
    exact List.mem_map_of_mem _ (List.mem_filter.mpr ⟨hs, by simp [hq]⟩)
  · simp [hq]

/-- When no staged id collides, the run commits and appends the staged
rows. -/
lemma create_static_of_committed (rows : List BiometricTypeRow)
    (hok : ((create_static_staged rows).any
      fun r => rows.any fun e => e.id == r.id) = false) :
    create_static rows = rows ++ create_static_staged rows := by
  simp [create_static, hok]

/-- When some staged id collides, the commit raises and the run rolls
back: the table is unchanged. -/
lemma create_static_of_collision (rows : List BiometricTypeRow)
    (hcol : ((create_static_staged rows).any
      fun r => rows.any fun e => e.id == r.id) = true) :
    create_static rows = rows := by
  simp [create_static, hcol]

/-- A table already holding every static name stages nothing. -/
lemma create_static_staged_eq_nil (l : List BiometricTypeRow)
    (h : ∀ s ∈ static_data, (l.any fun e => e.name == s.2.1) = true) :
    create_static_staged l = [] := by
  unfold create_static_staged
  rw [List.filter_eq_nil_iff.mpr fun s hs => by simp [h s hs]]
  rfl

/-- A second seeding run changes nothing: after a committed first run
all static names are present so nothing is staged, and after a rolled
back first run the second run stages (and collides) identically. -/
lemma create_static_idem (rows : List BiometricTypeRow) :
    create_static (create_static rows) = create_static rows := by
  cases hcol : (create_static_staged rows).any
      fun r => rows.any fun e => e.id == r.id
  · have h2 := create_static_of_committed rows hcol
    rw [h2]
    have h3 : create_static_staged (rows ++ create_static_staged rows) = [] :=
      create_static_staged_eq_nil _ (create_static_staged_all_present rows)
    unfold create_static
    rw [h3]
    simp
  · have h2 := create_static_of_collision rows hcol
    rw [h2]
    exact h2

/-- Name count of the rows one seeding run stages. -/
lemma countName_additions (rows : List BiometricTypeRow) (n : String)
    (sl : List (Nat × String × String)) :
    countName n ((sl.filter fun s => !(rows.any fun e => e.name == s.2.1)).map
        fun s => (⟨s.1, s.2.1, s.2.2⟩ : BiometricTypeRow)) =
      (sl.filter fun s =>
        s.2.1 == n && !(rows.any fun e => e.name == s.2.1)).length := by
  induction sl with
  | nil => rfl
  | cons s sl ih =>
    simp only [countName] at ih ⊢
    simp only [List.filter_cons]
    cases hq : rows.any fun e => e.name == s.2.1 <;>
      cases hn : s.2.1 == n <;>
        simp [List.filter_cons, hn, hq, ih]

/-- Generic count argument for one static name: starting from a table
holding that name at most once, two seeding runs — the first of which
commits (no staged id collides) — leave it exactly once. -/
lemma countName_create_static_twice (rows : List BiometricTypeRow)
    (n : String)
    (hstatic : (static_data.filter fun s => s.2.1 == n).length = 1)
    (hc : countName n rows ≤ 1)
    (hok : ((create_static_staged rows).any
      fun r => rows.any fun e => e.id == r.id) = false) :
    countName n (create_static (create_static rows)) = 1 := by
  rw [create_static_idem, create_static_of_committed rows hok]
  have hadd : countName n (create_static_staged rows) =
      (static_data.filter fun s =>
        s.2.1 == n && !(rows.any fun e => e.name == s.2.1)).length :=
    countName_additions rows n static_data
  have hsplit : countName n (rows ++ create_static_staged rows) =
      countName n rows + (static_data.filter fun s =>
        s.2.1 == n && !(rows.any fun e => e.name == s.2.1)).length := by
    rw [← hadd]
    unfold countName
    rw [List.filter_append, List.length_append]
  rw [hsplit]
  cases hb : rows.any fun e => e.name == n
  · have h0 : countName n rows = 0 := by
      unfold countName
      rw [List.filter_eq_nil_iff.mpr (by simpa using List.any_eq_false.mp hb)]
      rfl
    have hsame : (static_data.filter fun s =>
        s.2.1 == n && !(rows.any fun e => e.name == s.2.1)).length =
          (static_data.filter fun s => s.2.1 == n).length := by
      congr 1
      refine List.filter_congr fun x _ => ?_
      cases hx : x.2.1 == n
      · simp
      · rw [eq_of_beq hx, hb]
        rfl
    rw [h0, hsame, hstatic]
  · have h1 : 1 ≤ countName n rows := by
      obtain ⟨x, hx, hpx⟩ := List.any_eq_true.mp hb
      have hmem : x ∈ rows.filter fun e => e.name == n :=
        List.mem_filter.mpr ⟨hx, hpx⟩
      exact List.length_pos.mpr (List.ne_nil_of_mem hmem)
    have hnil : (static_data.filter fun s =>
        s.2.1 == n && !(rows.any fun e => e.name == s.2.1)).length = 0 := by
      rw [List.filter_eq_nil_iff.mpr fun x _ => ?_]
      · rfl
      · cases hx : x.2.1 == n
        · simp [hx]
        · rw [eq_of_beq hx, hb]
          simp
    rw [hnil]
    unfold countName at hc h1 ⊢
    omega

/-- **C8** (as stated, refuted).  Starting from a table that already
holds two rows named `"height"` (ids 1 and 2), running the seeding
twice does not leave exactly one row per static name.  In this state
the runs stage weight/blood pressure/ecg with their hard-coded ids
2, 3, 10; the staged weight id 2 collides with the existing row id 2,
so each run's commit raises `IntegrityError` and rolls back, and the
table keeps its two `"height"` rows (and zero `"weight"` rows). -/
theorem C8_counterexample :
    countName "height" (create_static (create_static
      [⟨1, "height", "cm"⟩, ⟨2, "height", "cm"⟩])) ≠ 1 := by
  decide

/-- **C8** (amended).  A second seeding run changes nothing
(`create_static` is idempotent from any starting state: a committed
first run leaves every static name present so nothing is staged, and a
rolled-back first run repeats identically), and from any starting
state in which a static name appears at most once and no staged entry
collides with an existing primary key (so the first run commits), two
seeding runs leave exactly one row with that name. -/
theorem C8_seed_twice_idempotent (rows : List BiometricTypeRow) :
    create_static (create_static rows) = create_static rows ∧
    (∀ n, n ∈ ["height", "weight", "blood pressure", "ecg"] →
      countName n rows ≤ 1 →
      ((create_static_staged rows).any
        fun r => rows.any fun e => e.id == r.id) = false →
      countName n (create_static (create_static rows)) = 1) := by
  refine ⟨create_static_idem rows, ?_⟩
  intro n hn hc hok
  simp only [List.mem_cons, List.mem_singleton, List.not_mem_nil,
    or_false] at hn
  rcases hn with rfl | rfl | rfl | rfl
  all_goals exact countName_create_static_twice rows _ (by decide) hc hok

/-- Witness for C8 starting from the empty table, where nothing
collides and the seeds commit. -/
theorem C8_witness :
    countName "height" ([] : List BiometricTypeRow) ≤ 1 ∧
    ((create_static_staged []).any
      fun r => ([] : List BiometricTypeRow).any fun e => e.id == r.id) = false ∧
    countName "height" (create_static (create_static [])) = 1 :=
  ⟨by decide, by decide,
    (C8_seed_twice_idempotent []).2 "height" (by decide) (by decide) (by decide)⟩

end Hrsdb
